import Mathlib

/-!
# ORION smart doorbell: the browser client `wwwroot/js/client_app.js`

A shallow embedding of the message-driven control layer of the client:
the command dispatcher (`SendCommand`), the inbound router
(`client.onMessageArrived`), the camera synchroniser (`setRemoteCameraMode`),
the stream retry controller (`loadMJPEGStream` and the image error handler),
the AI-response handler (`handleGPTResponseUpdate`, `displaySpinner`) and the
capture side of the audio pipeline (`mediaRecorder.ondataavailable`,
`mediaRecorder.onstop`, the reader completion callback).

Conventions of the embedding.

* The script's global variables and the DOM properties it reads or writes are
  the fields of `State`; a DOM property `camera_button.innerText` is the field
  `camera_button_innerText`.
* The external collaborators are recorded as traces: `sent` is the list of
  messages handed to `client.send`, in call order; `alerts` is the list of
  `showAlert` calls; `audio_player_play` counts the calls of
  `audio_player.play`; `pendingRetries` counts the `setTimeout(loadMJPEGStream,
  1000)` timers that have been scheduled and have not fired yet.
* `Date.now()` is an argument (`now`) of every function that can reach
  `loadMJPEGStream`.
* `console.log`, `console.warn` and `console.error` are diagnostic output and
  are not part of the state.
* Reading `message.payloadString` can throw (the getter belongs to the
  transport); `onMessageArrived` therefore returns an `Except`, and the inbound
  message carries the outcome of that read.
* Bytes are natural numbers; a chunk or a binary payload is a `List Nat`.
-/

namespace ClientApp

/-! ## MQTT topic constants (lines 13-20) and globals (lines 23-27) -/

def REMOTE_APP_CAMERA_ONOFF_CONTROL_TOPIC : String := "ring/remote_app_control/camera"
def REMOTE_DEV_CAMERA_ONOFF_CONTROL_TOPIC : String := "ring/local_dev_control/camera"
def REMOTE_APP_MICROPHONE_CONTROL_TOPIC : String := "ring/remote_app_control/microphone"
def REMOTE_APP_AUDIO_DATA_TOPIC : String := "ring/remote_app_audio_data"
def GPT_RESPONSE_TOPIC : String := "ring/gptresponse"
def GPT_REQUEST_TOPIC : String := "ring/gptrequest"
def LISTEN_AUDIO_RESPONSE_TOPIC : String := "ring/audioresponse"
def VOLUME_CONTROL_TOPIC : String := "ring/remote_app_control/volume"

def MAX_RETRIES : Nat := 3

/-- The literal that `handleGPTResponseUpdate` compares its argument with (line 212). -/
def WAITING_SENTINEL : String := "waiting for the AI to Answer..."

/-! ## Data model -/

/-- What `SendCommand` is given as payload: a command string or raw bytes. -/
inductive Payload where
  | text (s : String)
  | bytes (b : List Nat)
  deriving DecidableEq, Repr

/-- An outbound `Paho.MQTT.Message`: built from a payload (line 250), then
given its `destinationName` (line 251). -/
structure Message where
  payload : Payload
  destinationName : String
  deriving DecidableEq, Repr

/-- What reading a property of an inbound message can throw: the
`payloadString` getter of the transport throws when the payload bytes are not
UTF-8 text. -/
inductive Thrown where
  | malformedUTF8
  deriving DecidableEq, Repr

deriving instance DecidableEq for Except

/-- An inbound message as the handlers read it. `payloadString` is the outcome
of the getter, which is part of the transport and not of this script: the
payload as text, or the error it throws on bytes that are not UTF-8 text.
`payloadBytes` is always readable. -/
structure Arrived where
  destinationName : String
  payloadString : Except Thrown String
  payloadBytes : List Nat
  deriving DecidableEq, Repr

/-- Globals of the script, the DOM properties it touches, and the traces of
the external collaborators. -/
structure State where
  is_connected : Bool
  audioChunks : List (List Nat)
  cameraRetryCount : Nat
  camera_button_innerText : String
  camera_button_disabled : Bool
  gpt_button_disabled : Bool
  listen_button_disabled : Bool
  talk_button_disabled : Bool
  camera_image_display : String
  camera_image_src : String
  camera_image_onerror : Bool
  spinner_display : String
  messageDiv_innerText : String
  audio_player_src : Option (List Nat)
  audio_player_play : Nat
  sent : List Message
  alerts : List (String × String)
  pendingRetries : Nat
  deriving DecidableEq, Repr

/-! ## Utility functions (lines 236-260) -/

/-- Lines 236-239; the argument is the source's `show`. -/
def displaySpinner (show_ : Bool) (s : State) : State :=
  let s := { s with spinner_display := if show_ then "block" else "none" }
  { s with camera_image_display := if show_ then "none" else "inline" }

/-- Lines 241-243: one more `Swal.fire` call. -/
def showAlert (title text : String) (s : State) : State :=
  { s with alerts := s.alerts ++ [(title, text)] }

/-- Lines 245-253. -/
def SendCommand (topic : String) (payload : Payload) (s : State) : State :=
  if !s.is_connected then
    s
  else
    let msg : Message := { payload := payload, destinationName := "" }
    let msg := { msg with destinationName := topic }
    { s with sent := s.sent ++ [msg] }

/-- Lines 255-260. -/
def disableControls (status : Bool) (s : State) : State :=
  { s with
    camera_button_disabled := status
    gpt_button_disabled := status
    listen_button_disabled := status
    talk_button_disabled := status }

/-! ## Stream retry controller (lines 181-194) -/

/-- Lines 181-194, without the body of the error handler: the image source is
set to the stream URL carrying the timestamp, and the error handler is
installed. -/
def loadMJPEGStream (now : Nat) (s : State) : State :=
  let timestamp := now
  { s with
    camera_image_src := "/stream.mjpg?ts=" ++ toString timestamp
    camera_image_onerror := true }

/-- Lines 184-193: the body of the handler that `loadMJPEGStream` installs. -/
def onerror (s : State) : State :=
  let s := { s with cameraRetryCount := s.cameraRetryCount + 1 }
  if s.cameraRetryCount < MAX_RETRIES then
    { s with pendingRetries := s.pendingRetries + 1 }
  else
    showAlert "Camera Error" "Unable to load video stream." s

/-- The browser reports a load failure of the camera image: the installed
handler runs, if there is one. -/
def imageError (s : State) : State :=
  if s.camera_image_onerror then onerror s else s

/-- One pending `setTimeout(loadMJPEGStream, 1000)` timer fires. -/
def retryTimer (now : Nat) (s : State) : State :=
  if 0 < s.pendingRetries then
    loadMJPEGStream now { s with pendingRetries := s.pendingRetries - 1 }
  else
    s

/-! ## UI sync functions (lines 167-179, 197-222) -/

/-- Lines 167-179. -/
def setRemoteCameraMode (mode : String) (now : Nat) (s : State) : State :=
  let s := { s with
    camera_button_innerText := if mode = "on" then "Stop Camera" else "Start Camera" }
  if mode = "on" then
    let s := { s with camera_image_display := "inline" }
    let s := { s with cameraRetryCount := 0 }
    loadMJPEGStream now s
  else
    let s := { s with camera_image_display := "none" }
    { s with camera_image_src := "" }

/-- Lines 197-208: the object URL of a blob holding the payload bytes becomes
the source of the audio player (the field keeps the bytes the URL stands for)
and `play` is called once more. A rejected `play` and an exception inside the
`try` are caught and only logged. -/
def handleListenFromDoorMicrophone (message : Arrived) (s : State) : State :=
  let blob := message.payloadBytes
  let s := { s with audio_player_src := some blob }
  { s with audio_player_play := s.audio_player_play + 1 }

/-- Lines 211-222. -/
def handleGPTResponseUpdate (message : String) (s : State) : State :=
  let s :=
    if message = "waiting for the AI to Answer..." then
      let s := { s with gpt_button_disabled := true }
      let s := { s with camera_button_disabled := true }
      displaySpinner true s
    else
      let s := displaySpinner false s
      let s := { s with gpt_button_disabled := false }
      { s with camera_button_disabled := false }
  { s with messageDiv_innerText := message }

/-! ## MQTT event handlers (lines 41-81) -/

/-- Lines 41-44. -/
def onConnectionLost (s : State) : State :=
  { s with is_connected := false }

/-- Lines 46-59. The two text branches read `message.payloadString` outside
any `try`; when the getter throws, the error leaves the function before a
handler is called. The audio branch and the last branch do not read it. -/
def onMessageArrived (message : Arrived) (now : Nat) (s : State) : Except Thrown State :=
  if message.destinationName = GPT_RESPONSE_TOPIC then
    match message.payloadString with
    | .ok payloadString => .ok (handleGPTResponseUpdate payloadString s)
    | .error e => .error e
  else if message.destinationName = REMOTE_DEV_CAMERA_ONOFF_CONTROL_TOPIC then
    match message.payloadString with
    | .ok payloadString => .ok (setRemoteCameraMode payloadString now s)
    | .error e => .error e
  else if message.destinationName = LISTEN_AUDIO_RESPONSE_TOPIC then
    .ok (handleListenFromDoorMicrophone message s)
  else
    .ok s

/-- Lines 66-76: the `onSuccess` callback of `client.connect`. -/
def onConnectSuccess (s : State) : State :=
  let s := { s with is_connected := true }
  disableControls false s

/-- Lines 77-80: the `onFailure` callback of `client.connect`. -/
def onConnectFailure (errorMessage : String) (s : State) : State :=
  showAlert "MQTT Failure" errorMessage s

/-! ## Audio recording (lines 97-111) -/

/-- Lines 97-99. -/
def ondataavailable (data : List Nat) (s : State) : State :=
  if data.length > 0 then { s with audioChunks := s.audioChunks ++ [data] } else s

/-- Lines 102-104 and 110: the blob holds the chunks' bytes one after the
other; the chunk list is emptied; the blob is handed to the reader. -/
def onstop (s : State) : State × List Nat :=
  let blob := s.audioChunks.flatten
  ({ s with audioChunks := [] }, blob)

/-- Lines 105-109: the reader finished; `result` is the blob's bytes. -/
def reader_onload (result : List Nat) (s : State) : State :=
  let uint8Array := result
  SendCommand REMOTE_APP_AUDIO_DATA_TOPIC (Payload.bytes uint8Array) s

/-- The stop handler followed by the read-completion callback, nothing in
between. -/
def stopAndRead (s : State) : State :=
  let r := onstop s
  reader_onload r.2 r.1

/-! ## Button events (lines 130-138, 152-156) -/

/-- Lines 130-138. -/
def gpt_button_click (now : Nat) (s : State) : State :=
  if s.camera_button_innerText = "Stop Camera" then
    let s := SendCommand GPT_REQUEST_TOPIC (Payload.text "describe this image") s
    let s := SendCommand REMOTE_APP_CAMERA_ONOFF_CONTROL_TOPIC (Payload.text "off") s
    setRemoteCameraMode "off" now s
  else
    showAlert "Camera must be running" "Start camera before asking GPT." s

/-- Line 153: the mode a camera click computes from the label. -/
def clickMode (s : State) : String :=
  if s.camera_button_innerText = "Start Camera" then "on" else "off"

/-- Lines 152-156. -/
def camera_button_click (now : Nat) (s : State) : State :=
  let mode := clickMode s
  let s := setRemoteCameraMode mode now s
  SendCommand REMOTE_APP_CAMERA_ONOFF_CONTROL_TOPIC (Payload.text mode) s

/-- Lines 158-164. -/
def volume_button_click (up : Bool) (s : State) : State :=
  SendCommand VOLUME_CONTROL_TOPIC (Payload.text (if up then "up" else "down")) s

/-! ## The event loop -/

/-- What can happen to the client between two quiescent states: a callback of
the transport, a click the browser delivered to a listener, the error event of
the camera image, a retry timer, a callback of the recorder. Events that can
start a stream load carry the clock reading at that moment. -/
inductive Event where
  | connectSuccess
  | connectFailure (errorMessage : String)
  | connectionLost
  | messageArrived (message : Arrived) (now : Nat)
  | cameraClick (now : Nat)
  | gptClick (now : Nat)
  | volumeClick (up : Bool)
  | imageError
  | retryTimer (now : Nat)
  | dataAvailable (data : List Nat)
  | recorderStop
  deriving DecidableEq, Repr

/-- One event, handled to completion. When `onMessageArrived` throws, nothing
was written yet, so the script is left in the state it was in. -/
def step (s : State) : Event → State
  | .connectSuccess => onConnectSuccess s
  | .connectFailure e => onConnectFailure e s
  | .connectionLost => onConnectionLost s
  | .messageArrived m now =>
    match onMessageArrived m now s with
    | .ok s1 => s1
    | .error _ => s
  | .cameraClick now => camera_button_click now s
  | .gptClick now => gpt_button_click now s
  | .volumeClick up => volume_button_click up s
  | .imageError => imageError s
  | .retryTimer now => retryTimer now s
  | .dataAvailable d => ondataavailable d s
  | .recorderStop => stopAndRead s

/-- A sequence of events, handled in order. -/
def run (s : State) (evs : List Event) : State :=
  evs.foldl step s

/-- Modelled from the spec: the page markup is not part of the source, so the
DOM values at load time are taken from the spec (features start with intent
off: label "Start Camera", image hidden, no response text) and the controls
start disabled, which is what `disableControls(false)` on connect undoes. The
globals are the initialisers of lines 23-27. -/
def initial : State :=
  { is_connected := false
    audioChunks := []
    cameraRetryCount := 0
    camera_button_innerText := "Start Camera"
    camera_button_disabled := true
    gpt_button_disabled := true
    listen_button_disabled := true
    talk_button_disabled := true
    camera_image_display := "none"
    camera_image_src := ""
    camera_image_onerror := false
    spinner_display := "none"
    messageDiv_innerText := ""
    audio_player_src := none
    audio_player_play := 0
    sent := []
    alerts := []
    pendingRetries := 0 }

/-- A start state: the camera is off, the image is hidden and has no source,
nothing was sent, reported or scheduled yet. The other DOM values are free. -/
def IsStart (s : State) : Prop :=
  s.is_connected = false ∧ s.audioChunks = [] ∧ s.cameraRetryCount = 0 ∧
  s.camera_button_innerText = "Start Camera" ∧ s.camera_image_display = "none" ∧
  s.camera_image_src = "" ∧ s.camera_image_onerror = false ∧
  s.sent = [] ∧ s.alerts = [] ∧ s.pendingRetries = 0

/-- The states the client can be in: a start state followed by events. -/
def Reachable (s : State) : Prop :=
  ∃ s0 evs, IsStart s0 ∧ run s0 evs = s

/-- The UI-visible camera state: "on" when the button offers to stop the
camera, "off" otherwise. -/
def cameraState (s : State) : String :=
  if s.camera_button_innerText = "Stop Camera" then "on" else "off"

/-- The camera image is displayed only if the camera button reads "Stop Camera". -/
def ImageTracksCamera (s : State) : Prop :=
  s.camera_image_display = "inline" → s.camera_button_innerText = "Stop Camera"

/-- A camera-button click, or an inbound camera-status message whose payload
is "on" or "off". -/
def isCameraEvent : Event → Bool
  | .cameraClick _ => true
  | .messageArrived m _ =>
    decide (m.destinationName = REMOTE_DEV_CAMERA_ONOFF_CONTROL_TOPIC) &&
      (decide (m.payloadString = .ok "on") || decide (m.payloadString = .ok "off"))
  | _ => false

/-- The camera state the spec prescribes after one more event (section 8): an
authoritative status message overrides whatever was shown; a click issues the
opposite of what was shown as the local intent. -/
def specCameraStep (shown : String) : Event → String
  | .messageArrived m _ =>
    match m.payloadString with
    | .ok payload => payload
    | .error _ => shown
  | .cameraClick _ => if shown = "off" then "on" else "off"
  | _ => shown

/-- The camera state the spec prescribes after a sequence of clicks and status
messages, the camera being off at the start. -/
def specCameraState (evs : List Event) : String :=
  evs.foldl specCameraStep "off"

/-- An inbound AI response whose text is not the waiting sentinel. -/
def isAnswer : Event → Bool
  | .messageArrived m _ =>
    decide (m.destinationName = GPT_RESPONSE_TOPIC) &&
      (match m.payloadString with
       | .ok payload => !decide (payload = "waiting for the AI to Answer...")
       | .error _ => false)
  | _ => false

/-! ## Command dispatcher -/

/-- C1: `SendCommand topic payload` publishes if and only if the connection
flag is true. While `is_connected` is false the state is returned unchanged,
so `client.send` is not called; this is the case after `onConnectionLost`.
While it is true, exactly one message is appended to the calls of
`client.send`, its destination is `topic`, its payload is `payload` as given,
and nothing else changes. -/
theorem SendCommand_publishes_iff_connected (topic : String) (payload : Payload) (s : State) :
    (s.is_connected = false → SendCommand topic payload s = s) ∧
    (s.is_connected = true →
      SendCommand topic payload s =
        { s with sent := s.sent ++ [{ payload := payload, destinationName := topic }] } ∧
      (SendCommand topic payload s).sent.length = s.sent.length + 1) ∧
    SendCommand topic payload (onConnectionLost s) = onConnectionLost s ∧
    ((SendCommand topic payload s).sent.length = s.sent.length + 1 ↔ s.is_connected = true) := by
  refine ⟨?_, ?_, ?_, ?_⟩
  · intro h
    simp [SendCommand, h]
  · intro h
    simp [SendCommand, h]
  · simp [SendCommand, onConnectionLost]
  · cases h : s.is_connected <;> simp [SendCommand, h]

/-- C1 at concrete inputs: a text command while disconnected, and a binary
payload while connected. -/
theorem SendCommand_publishes_iff_connected_witness :
    SendCommand "ring/remote_app_control/volume" (Payload.text "up") initial = initial ∧
    (SendCommand "ring/remote_app_audio_data" (Payload.bytes [1, 2, 3])
        (onConnectSuccess initial)).sent =
      [{ payload := Payload.bytes [1, 2, 3], destinationName := "ring/remote_app_audio_data" }] :=
  ⟨(SendCommand_publishes_iff_connected _ _ initial).1 rfl,
   by
    rw [((SendCommand_publishes_iff_connected "ring/remote_app_audio_data"
      (Payload.bytes [1, 2, 3]) (onConnectSuccess initial)).2.1 rfl).1]
    rfl⟩

/-! ## Inbound router -/

/-- C9 as stated fails: a message on `ring/gptresponse` whose payload, the
bytes 255 and 254, is not UTF-8 text reaches no handler; the read of
`payloadString` throws and the error leaves `onMessageArrived`. -/
theorem undecodable_payload_reaches_no_handler :
    ¬ ∀ (m : Arrived) (now : Nat) (s : State),
        (m.destinationName = "ring/gptresponse" →
          ∃ text, onMessageArrived m now s = .ok (handleGPTResponseUpdate text s)) ∧
        (m.destinationName = "ring/local_dev_control/camera" →
          ∃ text, onMessageArrived m now s = .ok (setRemoteCameraMode text now s)) ∧
        (m.destinationName = "ring/audioresponse" →
          onMessageArrived m now s = .ok (handleListenFromDoorMicrophone m s)) ∧
        (m.destinationName ≠ "ring/gptresponse" →
          m.destinationName ≠ "ring/local_dev_control/camera" →
          m.destinationName ≠ "ring/audioresponse" →
          onMessageArrived m now s = .ok s) := by
  intro h
  obtain ⟨text, ht⟩ :=
    (h ⟨"ring/gptresponse", .error .malformedUTF8, [255, 254]⟩ 7 (onConnectSuccess initial)).1 rfl
  have herr : onMessageArrived ⟨"ring/gptresponse", .error .malformedUTF8, [255, 254]⟩ 7
      (onConnectSuccess initial) = .error .malformedUTF8 := by decide
  rw [herr] at ht
  cases ht

/-- C9, amended: `onMessageArrived` dispatches by exact match over three
pairwise distinct topics. On `ring/gptresponse` and on
`ring/local_dev_control/camera`, when the payload reads as text, it does
exactly what the AI-response handler, respectively the camera-status handler,
does with that text; when the read of `payloadString` throws, no handler runs
and that error is raised. On `ring/audioresponse` it does exactly what the
audio handler does, whatever the payload. On every other topic, whatever the
payload, it returns the state unchanged and raises no error; outbound topic
names and case variants of the inbound ones are among the other topics. -/
theorem onMessageArrived_exact_match (m : Arrived) (now : Nat) (s : State) :
    (GPT_RESPONSE_TOPIC ≠ REMOTE_DEV_CAMERA_ONOFF_CONTROL_TOPIC ∧
      GPT_RESPONSE_TOPIC ≠ LISTEN_AUDIO_RESPONSE_TOPIC ∧
      REMOTE_DEV_CAMERA_ONOFF_CONTROL_TOPIC ≠ LISTEN_AUDIO_RESPONSE_TOPIC) ∧
    (m.destinationName = "ring/gptresponse" →
      (∀ text, m.payloadString = .ok text →
        onMessageArrived m now s = .ok (handleGPTResponseUpdate text s)) ∧
      (∀ e, m.payloadString = .error e → onMessageArrived m now s = .error e)) ∧
    (m.destinationName = "ring/local_dev_control/camera" →
      (∀ text, m.payloadString = .ok text →
        onMessageArrived m now s = .ok (setRemoteCameraMode text now s)) ∧
      (∀ e, m.payloadString = .error e → onMessageArrived m now s = .error e)) ∧
    (m.destinationName = "ring/audioresponse" →
      onMessageArrived m now s = .ok (handleListenFromDoorMicrophone m s)) ∧
    (m.destinationName ≠ "ring/gptresponse" →
      m.destinationName ≠ "ring/local_dev_control/camera" →
      m.destinationName ≠ "ring/audioresponse" →
      onMessageArrived m now s = .ok s) ∧
    (∀ t ∈ [REMOTE_APP_CAMERA_ONOFF_CONTROL_TOPIC, REMOTE_APP_MICROPHONE_CONTROL_TOPIC,
        REMOTE_APP_AUDIO_DATA_TOPIC, GPT_REQUEST_TOPIC, VOLUME_CONTROL_TOPIC,
        "Ring/GptResponse", "RING/LOCAL_DEV_CONTROL/CAMERA", "ring/audioResponse",
        "ring/gptresponse/", " ring/gptresponse", ""],
      onMessageArrived { m with destinationName := t } now s = .ok s) := by
  refine ⟨by decide, ?_, ?_, ?_, ?_, ?_⟩
  · intro h
    constructor
    · intro text ht
      simp [onMessageArrived, h, ht, GPT_RESPONSE_TOPIC]
    · intro e he
      simp [onMessageArrived, h, he, GPT_RESPONSE_TOPIC]
  · intro h
    have h1 : ("ring/local_dev_control/camera" : String) ≠ "ring/gptresponse" := by decide
    constructor
    · intro text ht
      simp [onMessageArrived, h, h1, ht, GPT_RESPONSE_TOPIC,
        REMOTE_DEV_CAMERA_ONOFF_CONTROL_TOPIC]
    · intro e he
      simp [onMessageArrived, h, h1, he, GPT_RESPONSE_TOPIC,
        REMOTE_DEV_CAMERA_ONOFF_CONTROL_TOPIC]
  · intro h
    have h1 : ("ring/audioresponse" : String) ≠ "ring/gptresponse" := by decide
    have h2 : ("ring/audioresponse" : String) ≠ "ring/local_dev_control/camera" := by decide
    simp [onMessageArrived, h, h1, h2, GPT_RESPONSE_TOPIC,
      REMOTE_DEV_CAMERA_ONOFF_CONTROL_TOPIC, LISTEN_AUDIO_RESPONSE_TOPIC]
  · intro h1 h2 h3
    simp [onMessageArrived, h1, h2, h3, GPT_RESPONSE_TOPIC,
      REMOTE_DEV_CAMERA_ONOFF_CONTROL_TOPIC, LISTEN_AUDIO_RESPONSE_TOPIC]
  · intro t ht
    have key : t ≠ "ring/gptresponse" ∧ t ≠ "ring/local_dev_control/camera" ∧
        t ≠ "ring/audioresponse" := by
      simp only [List.mem_cons, List.mem_singleton, List.not_mem_nil, or_false] at ht
      rcases ht with h | h | h | h | h | h | h | h | h | h | h <;> subst h <;> decide
    simp [onMessageArrived, key.1, key.2.1, key.2.2, GPT_RESPONSE_TOPIC,
      REMOTE_DEV_CAMERA_ONOFF_CONTROL_TOPIC, LISTEN_AUDIO_RESPONSE_TOPIC]

/-- C9 amended, at concrete inputs, delivered to the client right after it
connected: a text message on each of the two text topics; on the audio topic,
on an outbound topic and on `ring/gptresponse` a payload that is not text. -/
theorem onMessageArrived_exact_match_witness :
    (onMessageArrived ⟨"ring/gptresponse", .ok "a cat", []⟩ 7 (onConnectSuccess initial)
      = .ok (handleGPTResponseUpdate "a cat" (onConnectSuccess initial))) ∧
    (onMessageArrived ⟨"ring/local_dev_control/camera", .ok "on", []⟩ 7
      (onConnectSuccess initial) = .ok (setRemoteCameraMode "on" 7 (onConnectSuccess initial))) ∧
    (onMessageArrived ⟨"ring/audioresponse", .error .malformedUTF8, [255, 254]⟩ 7
      (onConnectSuccess initial)
      = .ok (handleListenFromDoorMicrophone
          ⟨"ring/audioresponse", .error .malformedUTF8, [255, 254]⟩ (onConnectSuccess initial))) ∧
    (onMessageArrived ⟨"ring/gptrequest", .error .malformedUTF8, [255, 254]⟩ 7
      (onConnectSuccess initial) = .ok (onConnectSuccess initial)) ∧
    (onMessageArrived ⟨"ring/gptresponse", .error .malformedUTF8, [255, 254]⟩ 7
      (onConnectSuccess initial) = .error .malformedUTF8) :=
  ⟨((onMessageArrived_exact_match ⟨"ring/gptresponse", .ok "a cat", []⟩ 7 _).2.1 rfl).1
      "a cat" rfl,
   ((onMessageArrived_exact_match ⟨"ring/local_dev_control/camera", .ok "on", []⟩ 7
      _).2.2.1 rfl).1 "on" rfl,
   (onMessageArrived_exact_match ⟨"ring/audioresponse", .error .malformedUTF8, [255, 254]⟩ 7
      _).2.2.2.1 rfl,
   (onMessageArrived_exact_match ⟨"ring/gptrequest", .error .malformedUTF8, [255, 254]⟩ 7
      _).2.2.2.2.1 (by decide) (by decide) (by decide),
   ((onMessageArrived_exact_match ⟨"ring/gptresponse", .error .malformedUTF8, [255, 254]⟩ 7
      _).2.1 rfl).2 .malformedUTF8 rfl⟩

/-! ## AI-response handler -/

/-- C6: for every prior state and every response `m` other than the waiting
sentinel (the empty string included), `handleGPTResponseUpdate m` leaves the
GPT button and the camera button enabled, the waiting indicator hidden and the
response text equal to `m`; handling `m` a second time gives the same state as
handling it once. The same holds when `m` arrives through the router on
`ring/gptresponse`. -/
theorem handleGPTResponseUpdate_reenable_idempotent (m : String) (s : State)
    (hm : m ≠ "waiting for the AI to Answer...") :
    (handleGPTResponseUpdate m s).gpt_button_disabled = false ∧
    (handleGPTResponseUpdate m s).camera_button_disabled = false ∧
    (handleGPTResponseUpdate m s).spinner_display = "none" ∧
    (handleGPTResponseUpdate m s).messageDiv_innerText = m ∧
    handleGPTResponseUpdate m (handleGPTResponseUpdate m s) = handleGPTResponseUpdate m s ∧
    (∀ (b : List Nat) (now now2 : Nat),
      onMessageArrived ⟨GPT_RESPONSE_TOPIC, .ok m, b⟩ now s = .ok (handleGPTResponseUpdate m s) ∧
      (onMessageArrived ⟨GPT_RESPONSE_TOPIC, .ok m, b⟩ now s).bind
          (onMessageArrived ⟨GPT_RESPONSE_TOPIC, .ok m, b⟩ now2) =
        .ok (handleGPTResponseUpdate m s)) := by
  simp [handleGPTResponseUpdate, displaySpinner, onMessageArrived, hm, Except.bind]

/-- C6 at concrete inputs: the empty response, handled in the state in which
the waiting sentinel left the client. -/
theorem handleGPTResponseUpdate_reenable_idempotent_witness :
    ("" : String) ≠ "waiting for the AI to Answer..." ∧
    (handleGPTResponseUpdate "" (handleGPTResponseUpdate WAITING_SENTINEL initial)).gpt_button_disabled
      = false ∧
    handleGPTResponseUpdate "" (handleGPTResponseUpdate ""
        (handleGPTResponseUpdate WAITING_SENTINEL initial)) =
      handleGPTResponseUpdate "" (handleGPTResponseUpdate WAITING_SENTINEL initial) :=
  ⟨by decide,
   (handleGPTResponseUpdate_reenable_idempotent "" _ (by decide)).1,
   (handleGPTResponseUpdate_reenable_idempotent "" _ (by decide)).2.2.2.2.1⟩

/-! ## Stream retry controller -/

/-- C3 as stated fails: in the state reached from `initial` by a successful
connect, a camera click and one load failure a retry is pending. When
`setRemoteCameraMode "on"` runs there (the device confirms the camera) and
three failures follow, a timer is still pending after the third failure; it
fires and starts a fourth load. -/
theorem stale_retry_starts_fourth_load :
    ¬ ∀ s : State, Reachable s → ∀ t0 t1 t2 t3 : Nat,
        let started := setRemoteCameraMode "on" t0 s
        let fail1 := imageError started
        let retry1 := retryTimer t1 fail1
        let fail2 := imageError retry1
        let retry2 := retryTimer t2 fail2
        let fail3 := imageError retry2
        (fail1.pendingRetries = started.pendingRetries + 1 ∧ fail1.alerts = started.alerts) ∧
        (fail2.pendingRetries = retry1.pendingRetries + 1 ∧ fail2.alerts = retry1.alerts) ∧
        (fail3.pendingRetries = retry2.pendingRetries ∧
          fail3.alerts = s.alerts ++ [("Camera Error", "Unable to load video stream.")]) ∧
        retryTimer t3 fail3 = fail3 := by
  intro h
  have hr : Reachable (run initial [.connectSuccess, .cameraClick 0, .imageError]) :=
    ⟨initial, [.connectSuccess, .cameraClick 0, .imageError], by unfold IsStart; decide, rfl⟩
  have h2 : retryTimer 4 (imageError (retryTimer 3 (imageError (retryTimer 2 (imageError
      (setRemoteCameraMode "on" 1 (run initial [.connectSuccess, .cameraClick 0, .imageError])))))))
      = imageError (retryTimer 3 (imageError (retryTimer 2 (imageError
      (setRemoteCameraMode "on" 1 (run initial [.connectSuccess, .cameraClick 0, .imageError]))))))
      := (h _ hr 1 2 3 4).2.2.2
  revert h2
  decide

/-- C3, amended: bounded stream retry. After `setRemoteCameraMode "on"` the
retry count is 0. Of three load failures in a row, each followed by the firing
of the retry it scheduled, the first and the second schedule exactly one retry
and report nothing, the third schedules none and reports "Camera Error"; that
alert is the only one reported over the three failures. After the third
failure as many timers are pending as when the camera was turned on. With none
pending then, a timer firing afterwards starts no load. With one pending then
(no timer is ever cancelled), it still fires: a further load starts, and a
failure of that load reports "Camera Error" once more. -/
theorem stream_retry_bounded (s : State) (t0 t1 t2 : Nat) :
    let started := setRemoteCameraMode "on" t0 s
    let fail1 := imageError started
    let retry1 := retryTimer t1 fail1
    let fail2 := imageError retry1
    let retry2 := retryTimer t2 fail2
    let fail3 := imageError retry2
    started.cameraRetryCount = 0 ∧
    (fail1.pendingRetries = started.pendingRetries + 1 ∧ fail1.alerts = started.alerts) ∧
    (fail2.pendingRetries = retry1.pendingRetries + 1 ∧ fail2.alerts = retry1.alerts) ∧
    (fail3.pendingRetries = retry2.pendingRetries ∧
      fail3.alerts = retry2.alerts ++ [("Camera Error", "Unable to load video stream.")]) ∧
    fail3.alerts = s.alerts ++ [("Camera Error", "Unable to load video stream.")] ∧
    fail3.pendingRetries = s.pendingRetries ∧
    (s.pendingRetries = 0 → ∀ t3, retryTimer t3 fail3 = fail3) ∧
    (0 < s.pendingRetries → ∀ t3,
      (retryTimer t3 fail3).camera_image_src = "/stream.mjpg?ts=" ++ toString t3 ∧
      (retryTimer t3 fail3).pendingRetries = s.pendingRetries - 1 ∧
      (imageError (retryTimer t3 fail3)).alerts = s.alerts ++
        [("Camera Error", "Unable to load video stream."),
         ("Camera Error", "Unable to load video stream.")]) := by
  refine ⟨?_, ⟨?_, ?_⟩, ⟨?_, ?_⟩, ⟨?_, ?_⟩, ?_, ?_, ?_, ?_⟩
  all_goals
    simp [setRemoteCameraMode, loadMJPEGStream, imageError, onerror, retryTimer, showAlert,
      MAX_RETRIES]
  · intro h t3
    simp [h]
  · intro h t3
    simp [h]

/-- C3 amended, at concrete inputs: the camera turned on at time 10 and the two
retries firing at times 11 and 12, once in the client that has just connected
(no timer pending) and once after a camera click and a load failure (one timer
pending). -/
theorem stream_retry_bounded_witness :
    (imageError (retryTimer 12 (imageError (retryTimer 11 (imageError
      (setRemoteCameraMode "on" 10 (onConnectSuccess initial))))))).alerts
      = [("Camera Error", "Unable to load video stream.")] ∧
    retryTimer 13 (imageError (retryTimer 12 (imageError (retryTimer 11 (imageError
      (setRemoteCameraMode "on" 10 (onConnectSuccess initial)))))))
      = imageError (retryTimer 12 (imageError (retryTimer 11 (imageError
      (setRemoteCameraMode "on" 10 (onConnectSuccess initial)))))) ∧
    0 < (run initial [.connectSuccess, .cameraClick 0, .imageError]).pendingRetries ∧
    (retryTimer 13 (imageError (retryTimer 12 (imageError (retryTimer 11 (imageError
      (setRemoteCameraMode "on" 10
        (run initial [.connectSuccess, .cameraClick 0, .imageError])))))))).camera_image_src
      = "/stream.mjpg?ts=" ++ toString 13 :=
  ⟨(stream_retry_bounded (onConnectSuccess initial) 10 11 12).2.2.2.2.1,
   (stream_retry_bounded (onConnectSuccess initial) 10 11 12).2.2.2.2.2.2.1 rfl 13,
   by decide,
   ((stream_retry_bounded (run initial [.connectSuccess, .cameraClick 0, .imageError])
      10 11 12).2.2.2.2.2.2.2 (by decide) 13).1⟩

/-- C2 as stated fails: in the state reached from `initial` by a successful
connect, a camera click and one load failure a retry is pending; `setRemoteCameraMode "off"` leaves it
pending, and when it fires the image source is set to a stream URL. -/
theorem camera_off_keeps_pending_retry :
    ¬ ∀ s : State, Reachable s → 0 < s.pendingRetries → ∀ t t2 : Nat,
        (retryTimer t2 (setRemoteCameraMode "off" t s)).camera_image_src = "" := by
  intro h
  have hr : Reachable (run initial [.connectSuccess, .cameraClick 0, .imageError]) :=
    ⟨initial, [.connectSuccess, .cameraClick 0, .imageError], by unfold IsStart; decide, rfl⟩
  have h2 := h _ hr (by decide) 1 2
  revert h2
  decide

/-- C2, amended: turning the camera off does not cancel a pending retry. For
every state with a retry pending, `setRemoteCameraMode "off"` sets the label to
"Start Camera", hides the image and empties its source, and leaves the pending
timers and the retry count as they were. When a pending timer fires afterwards,
`loadMJPEGStream` runs: the image source becomes the stream URL of that moment,
which is not empty, while the image stays hidden and the label stays
"Start Camera". -/
theorem camera_off_then_retry_fires (s : State) (t t2 : Nat) (hp : 0 < s.pendingRetries) :
    let off := setRemoteCameraMode "off" t s
    let fired := retryTimer t2 off
    (off.camera_button_innerText = "Start Camera" ∧ off.camera_image_display = "none" ∧
      off.camera_image_src = "" ∧ off.pendingRetries = s.pendingRetries ∧
      off.cameraRetryCount = s.cameraRetryCount) ∧
    fired = loadMJPEGStream t2 { off with pendingRetries := s.pendingRetries - 1 } ∧
    fired.camera_image_src = "/stream.mjpg?ts=" ++ toString t2 ∧
    fired.camera_image_src ≠ "" ∧
    fired.camera_image_display = "none" ∧
    fired.camera_button_innerText = "Start Camera" ∧
    fired.pendingRetries = s.pendingRetries - 1 := by
  have hsrc : "/stream.mjpg?ts=" ++ toString t2 ≠ "" := by
    intro h
    have hl := congrArg String.length h
    simp [String.length_append] at hl
    exact absurd hl.1 (by decide)
  refine ⟨⟨?_, ?_, ?_, ?_, ?_⟩, ?_, ?_, ?_, ?_, ?_, ?_⟩
  all_goals
    simp [setRemoteCameraMode, retryTimer, loadMJPEGStream, hp]
  exact hsrc

/-- C2 amended, at a concrete input: the client connects, the camera is clicked
on at time 0, the load fails, the camera is turned off at time 1 and the timer
fires at time 2. -/
theorem camera_off_then_retry_fires_witness :
    0 < (run initial [.connectSuccess, .cameraClick 0, .imageError]).pendingRetries ∧
    (retryTimer 2 (setRemoteCameraMode "off" 1
        (run initial [.connectSuccess, .cameraClick 0, .imageError]))).camera_image_src
      = "/stream.mjpg?ts=" ++ toString 2 :=
  ⟨by decide,
   (camera_off_then_retry_fires (run initial [.connectSuccess, .cameraClick 0, .imageError]) 1 2
     (by decide)).2.2.1⟩

/-! ## Ask-GPT click -/

/-- C5 as stated fails: in the connected state with the camera on that a
connect and a camera click lead to, the controls are enabled and stay enabled
when the Ask-GPT click handler returns. -/
theorem gpt_click_leaves_buttons_enabled :
    ¬ ∀ (s : State) (now : Nat), s.is_connected = true →
        s.camera_button_innerText = "Stop Camera" →
        (gpt_button_click now s).camera_button_disabled = true ∧
        (gpt_button_click now s).gpt_button_disabled = true ∧
        (gpt_button_click now s).spinner_display = "block" := by
  intro h
  have h2 := h (run initial [.connectSuccess, .cameraClick 0]) 1 (by decide) (by decide)
  revert h2
  decide

/-- C5, amended: the Ask-GPT click handler does not disable the controls
itself. For every connected state with label "Stop Camera", when the handler
returns it has published the AI request and then the camera-off command, the
label is "Start Camera", the image is hidden without a source, and the
disabled flags of the camera and GPT buttons and the waiting indicator are as
before the click. Both buttons are disabled and the waiting indicator is shown
once the waiting sentinel arrives on `ring/gptresponse`. -/
theorem gpt_click_then_sentinel_disables (s : State) (now : Nat)
    (hc : s.is_connected = true) (hl : s.camera_button_innerText = "Stop Camera") :
    let clicked := gpt_button_click now s
    (clicked.sent = s.sent ++
        [{ payload := Payload.text "describe this image", destinationName := "ring/gptrequest" },
         { payload := Payload.text "off", destinationName := "ring/remote_app_control/camera" }] ∧
      clicked.camera_button_innerText = "Start Camera" ∧
      clicked.camera_image_display = "none" ∧ clicked.camera_image_src = "") ∧
    (clicked.camera_button_disabled = s.camera_button_disabled ∧
      clicked.gpt_button_disabled = s.gpt_button_disabled ∧
      clicked.spinner_display = s.spinner_display) ∧
    (∀ (b : List Nat) (t : Nat),
      onMessageArrived ⟨"ring/gptresponse", .ok "waiting for the AI to Answer...", b⟩ t clicked
        = .ok (handleGPTResponseUpdate "waiting for the AI to Answer..." clicked) ∧
      (handleGPTResponseUpdate "waiting for the AI to Answer..."
          clicked).camera_button_disabled = true ∧
      (handleGPTResponseUpdate "waiting for the AI to Answer..."
          clicked).gpt_button_disabled = true ∧
      (handleGPTResponseUpdate "waiting for the AI to Answer..."
          clicked).spinner_display = "block") := by
  simp [gpt_button_click, hl, SendCommand, hc, setRemoteCameraMode, onMessageArrived,
    handleGPTResponseUpdate, displaySpinner, GPT_RESPONSE_TOPIC, GPT_REQUEST_TOPIC,
    REMOTE_APP_CAMERA_ONOFF_CONTROL_TOPIC]

/-- C5 amended, at a concrete input: connect, camera click, Ask-GPT click. -/
theorem gpt_click_then_sentinel_disables_witness :
    (run initial [.connectSuccess, .cameraClick 0]).is_connected = true ∧
    (run initial [.connectSuccess, .cameraClick 0]).camera_button_innerText = "Stop Camera" ∧
    (gpt_button_click 1 (run initial [.connectSuccess, .cameraClick 0])).camera_button_disabled
      = (run initial [.connectSuccess, .cameraClick 0]).camera_button_disabled :=
  ⟨by decide, by decide,
   (gpt_click_then_sentinel_disables (run initial [.connectSuccess, .cameraClick 0]) 1
     (by decide) (by decide)).2.1.1⟩

/-! ## Audio capture -/

/-- Chunks handed over by the recorder are appended in arrival order, the
empty ones left out; nothing else changes. -/
theorem run_dataAvailable (chunks : List (List Nat)) (s : State) :
    run s (chunks.map Event.dataAvailable) =
      { s with audioChunks := s.audioChunks ++ chunks.filter (fun c => decide (c.length > 0)) } := by
  induction chunks generalizing s with
  | nil => simp [run]
  | cons c cs ih =>
    have hstep : run s ((c :: cs).map Event.dataAvailable) =
        run (ondataavailable c s) (cs.map Event.dataAvailable) := rfl
    rw [hstep, ih]
    by_cases hc : c.length > 0
    · simp [ondataavailable, hc, List.filter_cons]
    · simp [ondataavailable, hc, List.filter_cons]

/-- C7 as stated fails: in the connected state with no chunk captured, the
stop handler followed by the read completion hands one message to
`client.send`. -/
theorem stop_without_chunks_publishes :
    ¬ ∀ s : State, s.audioChunks = [] → (stopAndRead s).sent.length = s.sent.length := by
  intro h
  have h2 := h (onConnectSuccess initial) (by decide)
  revert h2
  decide

/-- C7, amended: with an empty chunk list, the stop handler followed by the
read completion calls `client.send` zero times and changes nothing while the
client is disconnected; while it is connected it calls `client.send` exactly
once, with the empty binary payload on `ring/remote_app_audio_data`. -/
theorem stop_without_chunks (s : State) (h0 : s.audioChunks = []) :
    (s.is_connected = false → stopAndRead s = s) ∧
    (s.is_connected = true →
      stopAndRead s = { s with sent := s.sent ++
        [{ payload := Payload.bytes [], destinationName := "ring/remote_app_audio_data" }] }) := by
  constructor
  · intro hc
    cases s
    simp_all [stopAndRead, onstop, reader_onload, SendCommand]
  · intro hc
    cases s
    simp_all [stopAndRead, onstop, reader_onload, SendCommand, REMOTE_APP_AUDIO_DATA_TOPIC]

/-- C7 amended, at concrete inputs: the client before and after it connected. -/
theorem stop_without_chunks_witness :
    initial.audioChunks = [] ∧ stopAndRead initial = initial ∧
    (stopAndRead (onConnectSuccess initial)).sent =
      [{ payload := Payload.bytes [], destinationName := "ring/remote_app_audio_data" }] :=
  ⟨rfl, (stop_without_chunks initial rfl).1 rfl,
   by rw [(stop_without_chunks (onConnectSuccess initial) rfl).2 rfl]; rfl⟩

/-- C8: for every N >= 1 and every N non-empty chunks handed over in arrival
order to a connected client whose chunk list was empty, the chunk list holds
the N chunks in that order; stopping then calls `client.send` exactly once,
on `ring/remote_app_audio_data`, with the bytes of the chunks one after the
other in arrival order; afterwards the chunk list is empty, so the blob of a
following stop is empty. -/
theorem stop_publishes_concatenation (s : State) (chunks : List (List Nat))
    (h0 : s.audioChunks = []) (hc : s.is_connected = true)
    (_hN : 1 ≤ chunks.length) (hne : ∀ c ∈ chunks, c ≠ []) :
    (run s (chunks.map Event.dataAvailable)).audioChunks = chunks ∧
    (run s (chunks.map Event.dataAvailable ++ [Event.recorderStop])).sent =
      s.sent ++ [{ payload := Payload.bytes chunks.flatten,
                   destinationName := "ring/remote_app_audio_data" }] ∧
    (run s (chunks.map Event.dataAvailable ++ [Event.recorderStop])).sent.length =
      s.sent.length + 1 ∧
    (run s (chunks.map Event.dataAvailable ++ [Event.recorderStop])).audioChunks = [] ∧
    (onstop (run s (chunks.map Event.dataAvailable ++ [Event.recorderStop]))).2 = [] := by
  have hfilter : chunks.filter (fun c => decide (c.length > 0)) = chunks := by
    apply List.filter_eq_self.mpr
    intro c hcmem
    have := hne c hcmem
    simpa [List.length_pos] using this
  have hacc : run s (chunks.map Event.dataAvailable) = { s with audioChunks := chunks } := by
    rw [run_dataAvailable, hfilter, h0]
    simp
  have hstop : run s (chunks.map Event.dataAvailable ++ [Event.recorderStop]) =
      stopAndRead (run s (chunks.map Event.dataAvailable)) := by
    simp [run, List.foldl_append, step]
  rw [hstop, hacc]
  simp [stopAndRead, onstop, reader_onload, SendCommand, hc, REMOTE_APP_AUDIO_DATA_TOPIC]

/-- C8 at a concrete input: two chunks, then stop, right after connecting. -/
theorem stop_publishes_concatenation_witness :
    (run (onConnectSuccess initial)
      ([[1, 2], [3]].map Event.dataAvailable ++ [Event.recorderStop])).sent =
      [{ payload := Payload.bytes [1, 2, 3], destinationName := "ring/remote_app_audio_data" }] :=
  (stop_publishes_concatenation (onConnectSuccess initial) [[1, 2], [3]] rfl rfl
    (by decide) (by decide)).2.1

/-! ## Camera synchroniser -/

/-- The last event of a sequence is handled in the state the others lead to. -/
theorem run_append_singleton (s : State) (pre : List Event) (e : Event) :
    run s (pre ++ [e]) = step (run s pre) e := by
  simp [run, List.foldl_append]

/-- One camera event moves the shown camera state as the spec prescribes, and
the label stays one of the two camera labels. -/
theorem cameraState_step (s : State) (e : Event) (he : isCameraEvent e = true)
    (hv : s.camera_button_innerText = "Start Camera" ∨ s.camera_button_innerText = "Stop Camera") :
    cameraState (step s e) = specCameraStep (cameraState s) e ∧
    ((step s e).camera_button_innerText = "Start Camera" ∨
      (step s e).camera_button_innerText = "Stop Camera") := by
  have hne : REMOTE_DEV_CAMERA_ONOFF_CONTROL_TOPIC ≠ GPT_RESPONSE_TOPIC := by decide
  cases e with
  | messageArrived m now =>
    simp only [isCameraEvent, Bool.and_eq_true, Bool.or_eq_true, decide_eq_true_eq] at he
    obtain ⟨hd, hp⟩ := he
    rcases hp with hp | hp <;>
      simp [step, onMessageArrived, hd, hne, hp, setRemoteCameraMode, loadMJPEGStream,
        cameraState, specCameraStep]
  | cameraClick now =>
    rcases hv with hv | hv <;>
      simp [step, camera_button_click, clickMode, hv, setRemoteCameraMode, loadMJPEGStream,
        SendCommand, cameraState, specCameraStep] <;>
      split <;> simp
  | connectSuccess => simp [isCameraEvent] at he
  | connectFailure _ => simp [isCameraEvent] at he
  | connectionLost => simp [isCameraEvent] at he
  | gptClick _ => simp [isCameraEvent] at he
  | volumeClick _ => simp [isCameraEvent] at he
  | imageError => simp [isCameraEvent] at he
  | retryTimer _ => simp [isCameraEvent] at he
  | dataAvailable _ => simp [isCameraEvent] at he
  | recorderStop => simp [isCameraEvent] at he

/-- A sequence of camera events moves the shown camera state as the spec
prescribes, from any state showing one of the two camera labels. -/
theorem cameraState_run (evs : List Event) (s : State)
    (hevs : ∀ e ∈ evs, isCameraEvent e = true)
    (hv : s.camera_button_innerText = "Start Camera" ∨ s.camera_button_innerText = "Stop Camera") :
    cameraState (run s evs) = evs.foldl specCameraStep (cameraState s) := by
  induction evs generalizing s with
  | nil => rfl
  | cons e es ih =>
    have hstep := cameraState_step s e (hevs e (List.mem_cons_self e es)) hv
    have hrun : run s (e :: es) = run (step s e) es := rfl
    rw [hrun, ih (step s e) (fun x hx => hevs x (List.mem_cons_of_mem e hx)) hstep.2, hstep.1]
    rfl

/-- C4: for every finite sequence of camera-button clicks and inbound
camera-status messages with payload "on" or "off", starting from the label
"Start Camera", the shown camera state is the one the spec prescribes: "off"
after the empty sequence, the payload of the last event when that is a status
message, and the intent the last click issued when the last event is a click.
A status message sets the label to "Stop Camera" iff its payload is "on",
whatever the state before. -/
theorem camera_state_follows_last_event (s0 : State) (evs : List Event)
    (h0 : s0.camera_button_innerText = "Start Camera")
    (hevs : ∀ e ∈ evs, isCameraEvent e = true) :
    cameraState (run s0 evs) = specCameraState evs ∧
    (evs = [] → cameraState (run s0 evs) = "off") ∧
    (∀ pre m now, evs = pre ++ [Event.messageArrived m now] →
      m.payloadString = .ok (cameraState (run s0 evs))) ∧
    (∀ pre now, evs = pre ++ [Event.cameraClick now] →
      cameraState (run s0 evs) = clickMode (run s0 pre) ∧
      ((run s0 pre).is_connected = true →
        (run s0 evs).sent = (run s0 pre).sent ++
          [{ payload := Payload.text (clickMode (run s0 pre)),
             destinationName := "ring/remote_app_control/camera" }])) ∧
    (∀ (s : State) (p : String) (b : List Nat) (now : Nat),
      onMessageArrived ⟨"ring/local_dev_control/camera", .ok p, b⟩ now s
        = .ok (setRemoteCameraMode p now s) ∧
      ((setRemoteCameraMode p now s).camera_button_innerText = "Stop Camera" ↔ p = "on")) := by
  have hne : REMOTE_DEV_CAMERA_ONOFF_CONTROL_TOPIC ≠ GPT_RESPONSE_TOPIC := by decide
  have hshown : cameraState s0 = "off" := by simp [cameraState, h0]
  have hspec : cameraState (run s0 evs) = specCameraState evs := by
    rw [cameraState_run evs s0 hevs (Or.inl h0), hshown]
    rfl
  refine ⟨hspec, ?_, ?_, ?_, ?_⟩
  · intro he
    subst he
    simpa [run] using hshown
  · intro pre m now he
    have hmem : isCameraEvent (Event.messageArrived m now) = true :=
      hevs _ (by rw [he]; simp)
    simp only [isCameraEvent, Bool.and_eq_true, Bool.or_eq_true, decide_eq_true_eq] at hmem
    rw [hspec, he]
    rcases hmem.2 with hp | hp <;>
      simp [specCameraState, List.foldl_append, specCameraStep, hp]
  · intro pre now he
    subst he
    rw [run_append_singleton]
    generalize run s0 pre = s
    constructor
    · by_cases hl : s.camera_button_innerText = "Start Camera" <;>
        simp [step, camera_button_click, clickMode, hl, setRemoteCameraMode, loadMJPEGStream,
          SendCommand, cameraState] <;>
        split <;> simp
    · intro hc
      by_cases hl : s.camera_button_innerText = "Start Camera" <;>
        simp [step, camera_button_click, clickMode, hl, setRemoteCameraMode, loadMJPEGStream,
          SendCommand, hc, REMOTE_APP_CAMERA_ONOFF_CONTROL_TOPIC]
  · intro s p b now
    by_cases hp : p = "on" <;>
      simp [onMessageArrived, GPT_RESPONSE_TOPIC, REMOTE_DEV_CAMERA_ONOFF_CONTROL_TOPIC,
        setRemoteCameraMode, loadMJPEGStream, hp]

/-- C4 at concrete inputs, from the client that has just connected: click,
status "off", click; and click, status "on", status "off". -/
theorem camera_state_follows_last_event_witness :
    cameraState (run (onConnectSuccess initial) [.cameraClick 0,
      .messageArrived ⟨"ring/local_dev_control/camera", .ok "off", []⟩ 1, .cameraClick 2])
      = "on" ∧
    Except.ok (ε := Thrown) "off" = .ok (cameraState (run (onConnectSuccess initial)
      [.cameraClick 0,
      .messageArrived ⟨"ring/local_dev_control/camera", .ok "on", []⟩ 1,
      .messageArrived ⟨"ring/local_dev_control/camera", .ok "off", []⟩ 2])) :=
  ⟨((camera_state_follows_last_event (onConnectSuccess initial) [.cameraClick 0,
      .messageArrived ⟨"ring/local_dev_control/camera", .ok "off", []⟩ 1, .cameraClick 2]
      rfl (by decide)).1).trans (by decide),
   (camera_state_follows_last_event (onConnectSuccess initial) [.cameraClick 0,
      .messageArrived ⟨"ring/local_dev_control/camera", .ok "on", []⟩ 1,
      .messageArrived ⟨"ring/local_dev_control/camera", .ok "off", []⟩ 2]
      rfl (by decide)).2.2.1 [.cameraClick 0,
      .messageArrived ⟨"ring/local_dev_control/camera", .ok "on", []⟩ 1]
      ⟨"ring/local_dev_control/camera", .ok "off", []⟩ 2 rfl⟩

/-! ## Camera image visibility -/

/-- Every event other than an AI answer keeps the camera image hidden unless
the camera button reads "Stop Camera". -/
theorem imageTracksCamera_step (s : State) (e : Event) (hna : isAnswer e = false)
    (h : ImageTracksCamera s) : ImageTracksCamera (step s e) := by
  unfold ImageTracksCamera at h ⊢
  cases e with
  | connectSuccess => simpa [step, onConnectSuccess, disableControls] using h
  | connectFailure _ => simpa [step, onConnectFailure, showAlert] using h
  | connectionLost => simpa [step, onConnectionLost] using h
  | messageArrived m now =>
    have hne : REMOTE_DEV_CAMERA_ONOFF_CONTROL_TOPIC ≠ GPT_RESPONSE_TOPIC := by decide
    by_cases h1 : m.destinationName = GPT_RESPONSE_TOPIC
    · cases hps : m.payloadString with
      | error e => simpa [step, onMessageArrived, h1, hps] using h
      | ok text =>
        have hp : text = "waiting for the AI to Answer..." := by
          simpa [isAnswer, h1, hps] using hna
        simp [step, onMessageArrived, h1, hps, hp, handleGPTResponseUpdate, displaySpinner]
    · by_cases h2 : m.destinationName = REMOTE_DEV_CAMERA_ONOFF_CONTROL_TOPIC
      · cases hps : m.payloadString with
        | error e => simpa [step, onMessageArrived, h2, hne, hps] using h
        | ok text =>
          by_cases hp : text = "on" <;>
            simp [step, onMessageArrived, h2, hne, hps, hp, setRemoteCameraMode,
              loadMJPEGStream]
      · by_cases h3 : m.destinationName = LISTEN_AUDIO_RESPONSE_TOPIC
        · simpa [step, onMessageArrived, h1, h2, h3, handleListenFromDoorMicrophone] using h
        · simpa [step, onMessageArrived, h1, h2, h3] using h
  | cameraClick now =>
    by_cases hl : s.camera_button_innerText = "Start Camera" <;>
      cases hc : s.is_connected <;>
      simp [step, camera_button_click, clickMode, hl, setRemoteCameraMode, loadMJPEGStream,
        SendCommand, hc]
  | gptClick now =>
    by_cases hl : s.camera_button_innerText = "Stop Camera"
    · cases hc : s.is_connected <;>
        simp [step, gpt_button_click, hl, setRemoteCameraMode, SendCommand, hc]
    · simpa [step, gpt_button_click, hl, showAlert] using h
  | volumeClick up =>
    cases hc : s.is_connected <;>
      simpa [step, volume_button_click, SendCommand, hc] using h
  | imageError =>
    by_cases ho : s.camera_image_onerror = true
    · by_cases hlt : s.cameraRetryCount + 1 < MAX_RETRIES
      · simpa [step, imageError, ho, onerror, hlt] using h
      · simpa [step, imageError, ho, onerror, hlt, showAlert] using h
    · simpa [step, imageError, ho] using h
  | retryTimer now =>
    by_cases hp : 0 < s.pendingRetries
    · simpa [step, retryTimer, hp, loadMJPEGStream] using h
    · simpa [step, retryTimer, hp] using h
  | dataAvailable d =>
    by_cases hd : d.length > 0
    · simpa [step, ondataavailable, hd] using h
    · simpa [step, ondataavailable, hd] using h
  | recorderStop =>
    cases hc : s.is_connected <;>
      simpa [step, stopAndRead, onstop, reader_onload, SendCommand, hc] using h

/-- A sequence of events without an AI answer keeps the camera image hidden
unless the camera button reads "Stop Camera". -/
theorem imageTracksCamera_run (evs : List Event) (s : State)
    (hevs : ∀ e ∈ evs, isAnswer e = false) (h : ImageTracksCamera s) :
    ImageTracksCamera (run s evs) := by
  induction evs generalizing s with
  | nil => exact h
  | cons e es ih =>
    have hrun : run s (e :: es) = run (step s e) es := rfl
    rw [hrun]
    exact ih (step s e) (fun x hx => hevs x (List.mem_cons_of_mem e hx))
      (imageTracksCamera_step s e (hevs e (List.mem_cons_self e es)) h)

/-- C10 as stated fails: after connect, camera click, Ask-GPT click and an AI
answer the image is displayed while the button reads "Start Camera"; the
state is reachable, and the AI-response handler is the one that breaks the
predicate. -/
theorem answer_shows_image_while_camera_off :
    ¬ ∀ s : State, Reachable s → ImageTracksCamera s := by
  intro h
  have hr : Reachable (run initial [.connectSuccess, .cameraClick 0, .gptClick 1,
      .messageArrived ⟨"ring/gptresponse", .ok "a parcel at the door", []⟩ 2]) :=
    ⟨initial, _, by unfold IsStart; decide, rfl⟩
  have h2 := h _ hr
  unfold ImageTracksCamera at h2
  revert h2
  decide

/-- C10, amended: the predicate "the camera image is displayed only if the
camera button reads 'Stop Camera'" is preserved by the camera click, the
Ask-GPT click, an inbound camera-status message and an inbound AI response
carrying the waiting sentinel, so it holds in every state reached from a start
state by events among which there is no AI answer. An AI response with any
other payload displays the image and leaves the label as it was, so after it
the predicate holds exactly when the label is "Stop Camera". -/
theorem image_tracks_camera_except_answer (s : State) (now : Nat) (h : ImageTracksCamera s) :
    ImageTracksCamera (camera_button_click now s) ∧
    ImageTracksCamera (gpt_button_click now s) ∧
    (∀ (p : String) (b : List Nat),
      onMessageArrived ⟨"ring/local_dev_control/camera", .ok p, b⟩ now s
        = .ok (setRemoteCameraMode p now s) ∧
      ImageTracksCamera (setRemoteCameraMode p now s)) ∧
    (∀ b : List Nat,
      onMessageArrived ⟨"ring/gptresponse", .ok "waiting for the AI to Answer...", b⟩ now s
        = .ok (handleGPTResponseUpdate "waiting for the AI to Answer..." s) ∧
      ImageTracksCamera (handleGPTResponseUpdate "waiting for the AI to Answer..." s)) ∧
    (∀ (m : String) (b : List Nat), m ≠ "waiting for the AI to Answer..." →
      onMessageArrived ⟨"ring/gptresponse", .ok m, b⟩ now s
        = .ok (handleGPTResponseUpdate m s) ∧
      (handleGPTResponseUpdate m s).camera_image_display = "inline" ∧
      (handleGPTResponseUpdate m s).camera_button_innerText = s.camera_button_innerText ∧
      (ImageTracksCamera (handleGPTResponseUpdate m s) ↔
        s.camera_button_innerText = "Stop Camera")) ∧
    (∀ (s0 : State) (evs : List Event), IsStart s0 → (∀ e ∈ evs, isAnswer e = false) →
      ImageTracksCamera (run s0 evs)) := by
  have hne : REMOTE_DEV_CAMERA_ONOFF_CONTROL_TOPIC ≠ GPT_RESPONSE_TOPIC := by decide
  refine ⟨?_, ?_, ?_, ?_, ?_, ?_⟩
  · exact imageTracksCamera_step s (.cameraClick now) rfl h
  · exact imageTracksCamera_step s (.gptClick now) rfl h
  · intro p b
    have hrouted : onMessageArrived ⟨"ring/local_dev_control/camera", .ok p, b⟩ now s
        = .ok (setRemoteCameraMode p now s) := by
      simp [onMessageArrived, GPT_RESPONSE_TOPIC, REMOTE_DEV_CAMERA_ONOFF_CONTROL_TOPIC]
    refine ⟨hrouted, ?_⟩
    have hstep := imageTracksCamera_step s
      (.messageArrived ⟨"ring/local_dev_control/camera", .ok p, b⟩ now)
      (by simp [isAnswer, GPT_RESPONSE_TOPIC]) h
    simpa [step, hrouted] using hstep
  · intro b
    have hrouted :
        onMessageArrived ⟨"ring/gptresponse", .ok "waiting for the AI to Answer...", b⟩ now s
        = .ok (handleGPTResponseUpdate "waiting for the AI to Answer..." s) := by
      simp [onMessageArrived, GPT_RESPONSE_TOPIC]
    refine ⟨hrouted, ?_⟩
    have hstep := imageTracksCamera_step s
      (.messageArrived ⟨"ring/gptresponse", .ok "waiting for the AI to Answer...", b⟩ now)
      (by simp [isAnswer]) h
    simpa [step, hrouted] using hstep
  · intro m b hm
    simp [onMessageArrived, GPT_RESPONSE_TOPIC, handleGPTResponseUpdate, hm, displaySpinner,
      ImageTracksCamera]
  · intro s0 evs hs0 hevs
    have hstart : ImageTracksCamera s0 := by
      intro hd
      rw [hs0.2.2.2.2.1] at hd
      exact absurd hd (by decide)
    exact imageTracksCamera_run evs s0 hevs hstart

/-- C10 amended, at a concrete input: the connected client with the camera on;
the Ask-GPT click keeps the predicate, the answer that follows breaks it. -/
theorem image_tracks_camera_except_answer_witness :
    ImageTracksCamera (run initial [.connectSuccess, .cameraClick 0]) ∧
    ImageTracksCamera (gpt_button_click 1 (run initial [.connectSuccess, .cameraClick 0])) ∧
    (handleGPTResponseUpdate "a parcel at the door"
      (gpt_button_click 1 (run initial [.connectSuccess, .cameraClick 0]))).camera_image_display
      = "inline" :=
  ⟨by unfold ImageTracksCamera; decide,
   (image_tracks_camera_except_answer (run initial [.connectSuccess, .cameraClick 0]) 1
     (by unfold ImageTracksCamera; decide)).2.1,
   ((image_tracks_camera_except_answer
      (gpt_button_click 1 (run initial [.connectSuccess, .cameraClick 0])) 2
      (by unfold ImageTracksCamera; decide)).2.2.2.2.1 "a parcel at the door" []
      (by decide)).2.1⟩

end ClientApp
